import Mathlib

/-!
Shallow embedding of the timezone-aware calendar date type of `src/date.rs`
(rust-chrono's `Date<Off>`), together with models of its external
collaborators (naive dates and times, durations, the `Offset`/`OffsetState`
capability pair and the `LocalResult` resolution type), and theorems
settling the specification claims about it.
-/

namespace Chrono

/-- Modelled from the spec: the external duration collaborator (§6), at the
day granularity at which calendar-date arithmetic operates — a signed count
of days. -/
abbrev Duration := Int

/-- Modelled from the spec: the external calendrical primitive `NaiveDate`
(§3, "opaque, totally ordered, immutable value"), represented by its signed
day number (day 0 = 1970-01-01 in the proleptic Gregorian calendar). -/
structure NaiveDate where
  days : Int
deriving DecidableEq

/-- Modelled from the spec: proleptic Gregorian leap-year rule used by the
external calendrical primitive. -/
def isLeap (y : Int) : Bool :=
  Int.fmod y 4 == 0 && (Int.fmod y 100 != 0 || Int.fmod y 400 == 0)

/-- Modelled from the spec: number of days of a month of a year. -/
def daysInMonth (y : Int) (m : Nat) : Nat :=
  match m with
  | 1 => 31 | 2 => if isLeap y then 29 else 28 | 3 => 31 | 4 => 30
  | 5 => 31 | 6 => 30 | 7 => 31 | 8 => 31 | 9 => 30 | 10 => 31
  | 11 => 30 | 12 => 31 | _ => 0

/-- Modelled from the spec: number of days of a year. -/
def daysInYear (y : Int) : Nat := if isLeap y then 366 else 365

/-- Modelled from the spec: day number of a proleptic Gregorian civil date
(the standard era-based conversion, floor divisions throughout). -/
def daysFromCivil (y : Int) (m d : Nat) : Int :=
  let yy : Int := if m ≤ 2 then y - 1 else y
  let era : Int := Int.fdiv yy 400
  let yoe : Int := yy - era * 400
  let mp : Int := Int.fmod ((m : Int) + 9) 12
  let doy : Int := Int.fdiv (153 * mp + 2) 5 + (d : Int) - 1
  let doe : Int := yoe * 365 + Int.fdiv yoe 4 - Int.fdiv yoe 100 + doy
  era * 146097 + doe - 719468

/-- Modelled from the spec: civil (year, month, day) fields of a day
number, inverse of `daysFromCivil`. -/
def civilFromDays (z : Int) : Int × Nat × Nat :=
  let z2 := z + 719468
  let era := Int.fdiv z2 146097
  let doe := z2 - era * 146097
  let yoe := Int.fdiv (doe - Int.fdiv doe 1460 + Int.fdiv doe 36524 - Int.fdiv doe 146096) 365
  let y := yoe + era * 400
  let doy := doe - (365 * yoe + Int.fdiv yoe 4 - Int.fdiv yoe 100)
  let mp := Int.fdiv (5 * doy + 2) 153
  let d := doy - Int.fdiv (153 * mp + 2) 5 + 1
  let m := if mp < 10 then mp + 3 else mp - 9
  ((if m ≤ 2 then y + 1 else y), m.toNat, d.toNat)

/-- Modelled from the spec: smallest supported year of the calendrical
primitive (the representable-range boundary of §7 made concrete). -/
def minYear : Int := -262144

/-- Modelled from the spec: largest supported year of the calendrical
primitive. -/
def maxYear : Int := 262143

/-- Modelled from the spec: first representable day number. -/
def minDay : Int := daysFromCivil minYear 1 1

/-- Modelled from the spec: last representable day number. -/
def maxDay : Int := daysFromCivil maxYear 12 31

/-- Modelled from the spec: the external constant `naive::date::MIN`. -/
def naiveMIN : NaiveDate := ⟨minDay⟩

/-- Modelled from the spec: the external constant `naive::date::MAX`. -/
def naiveMAX : NaiveDate := ⟨maxDay⟩

/-- Modelled from the spec: the day of the week, Monday through Sunday. -/
inductive Weekday where
  | Mon | Tue | Wed | Thu | Fri | Sat | Sun
deriving DecidableEq

/-- Modelled from the spec: weekday from its ISO number minus one. -/
def Weekday.ofIndex (n : Nat) : Weekday :=
  match n % 7 with
  | 0 => .Mon | 1 => .Tue | 2 => .Wed | 3 => .Thu | 4 => .Fri | 5 => .Sat
  | _ => .Sun

/-- Modelled from the spec: ISO weekday number, Monday = 1 .. Sunday = 7. -/
def Weekday.isoNumber : Weekday → Nat
  | .Mon => 1 | .Tue => 2 | .Wed => 3 | .Thu => 4 | .Fri => 5 | .Sat => 6
  | .Sun => 7

/-- Modelled from the spec: the calendar year field accessor. -/
def NaiveDate.year (nd : NaiveDate) : Int := (civilFromDays nd.days).1

/-- Modelled from the spec: the month field accessor (1–12). -/
def NaiveDate.month (nd : NaiveDate) : Nat := (civilFromDays nd.days).2.1

/-- Modelled from the spec: the zero-based month field accessor (0–11). -/
def NaiveDate.month0 (nd : NaiveDate) : Nat := nd.month - 1

/-- Modelled from the spec: the day-of-month field accessor (1–31). -/
def NaiveDate.day (nd : NaiveDate) : Nat := (civilFromDays nd.days).2.2

/-- Modelled from the spec: the zero-based day-of-month field accessor. -/
def NaiveDate.day0 (nd : NaiveDate) : Nat := nd.day - 1

/-- Modelled from the spec: the day-of-year field accessor (1–366). -/
def NaiveDate.ordinal (nd : NaiveDate) : Nat :=
  (nd.days - daysFromCivil nd.year 1 1 + 1).toNat

/-- Modelled from the spec: the zero-based day-of-year field accessor. -/
def NaiveDate.ordinal0 (nd : NaiveDate) : Nat := nd.ordinal - 1

/-- Modelled from the spec: the weekday accessor (day 0 = 1970-01-01 was a
Thursday). -/
def NaiveDate.weekday (nd : NaiveDate) : Weekday :=
  Weekday.ofIndex (Int.fmod (nd.days + 3) 7).toNat

/-- Modelled from the spec: whether a year has 53 ISO weeks. -/
def hasLongIsoYear (y : Int) : Bool :=
  let jan1 : Weekday := NaiveDate.weekday ⟨daysFromCivil y 1 1⟩
  jan1 == .Thu || (isLeap y && jan1 == .Wed)

/-- Modelled from the spec: number of ISO weeks of a year (52 or 53). -/
def lastIsoWeek (y : Int) : Nat := if hasLongIsoYear y then 53 else 52

/-- Modelled from the spec: the ISO week date accessor
(ISO year, week number, weekday). -/
def NaiveDate.isoweekdate (nd : NaiveDate) : Int × Nat × Weekday :=
  let y := nd.year
  let ord : Int := nd.days - daysFromCivil y 1 1 + 1
  let wd := nd.weekday
  let week : Int := Int.fdiv (10 + ord - (wd.isoNumber : Int)) 7
  if week < 1 then (y - 1, lastIsoWeek (y - 1), wd)
  else if week > (lastIsoWeek y : Int) then (y + 1, 1, wd)
  else (y, week.toNat, wd)

/-- Modelled from the spec: fallible construction from civil fields,
failing on out-of-range fields or years (§7 OutOfRange). -/
def NaiveDate.from_ymd_opt (y : Int) (m d : Nat) : Option NaiveDate :=
  if minYear ≤ y ∧ y ≤ maxYear ∧ 1 ≤ m ∧ m ≤ 12 ∧ 1 ≤ d ∧ d ≤ daysInMonth y m
  then some ⟨daysFromCivil y m d⟩ else none

/-- Modelled from the spec: fallible construction from a year and a
day-of-year ordinal. -/
def NaiveDate.from_yo_opt (y : Int) (o : Nat) : Option NaiveDate :=
  if minYear ≤ y ∧ y ≤ maxYear ∧ 1 ≤ o ∧ o ≤ daysInYear y
  then some ⟨daysFromCivil y 1 1 + (o : Int) - 1⟩ else none

/-- Modelled from the spec: the field-replacement operation for the year,
failing when the resulting date is not calendrically valid. -/
def NaiveDate.with_year (nd : NaiveDate) (y : Int) : Option NaiveDate :=
  NaiveDate.from_ymd_opt y nd.month nd.day

/-- Modelled from the spec: the field-replacement operation for the month. -/
def NaiveDate.with_month (nd : NaiveDate) (m : Nat) : Option NaiveDate :=
  NaiveDate.from_ymd_opt nd.year m nd.day

/-- Modelled from the spec: zero-based month replacement. -/
def NaiveDate.with_month0 (nd : NaiveDate) (m0 : Nat) : Option NaiveDate :=
  nd.with_month (m0 + 1)

/-- Modelled from the spec: day-of-month replacement. -/
def NaiveDate.with_day (nd : NaiveDate) (d : Nat) : Option NaiveDate :=
  NaiveDate.from_ymd_opt nd.year nd.month d

/-- Modelled from the spec: zero-based day-of-month replacement. -/
def NaiveDate.with_day0 (nd : NaiveDate) (d0 : Nat) : Option NaiveDate :=
  nd.with_day (d0 + 1)

/-- Modelled from the spec: day-of-year replacement. -/
def NaiveDate.with_ordinal (nd : NaiveDate) (o : Nat) : Option NaiveDate :=
  NaiveDate.from_yo_opt nd.year o

/-- Modelled from the spec: zero-based day-of-year replacement. -/
def NaiveDate.with_ordinal0 (nd : NaiveDate) (o0 : Nat) : Option NaiveDate :=
  nd.with_ordinal (o0 + 1)

/-- Modelled from the spec: the calendrical `succ_opt`, failing at the last
representable date. -/
def NaiveDate.succ_opt (nd : NaiveDate) : Option NaiveDate :=
  if nd.days < maxDay then some ⟨nd.days + 1⟩ else none

/-- Modelled from the spec: the calendrical `pred_opt`, failing at the first
representable date. -/
def NaiveDate.pred_opt (nd : NaiveDate) : Option NaiveDate :=
  if minDay < nd.days then some ⟨nd.days - 1⟩ else none

/-- Modelled from the spec: adding a duration to a naive date. -/
def NaiveDate.addDur (nd : NaiveDate) (k : Duration) : NaiveDate := ⟨nd.days + k⟩

/-- Modelled from the spec: subtracting a duration from a naive date. -/
def NaiveDate.subDur (nd : NaiveDate) (k : Duration) : NaiveDate := nd.addDur (-k)

/-- Modelled from the spec: the difference of two naive dates, a duration. -/
def NaiveDate.subDate (a b : NaiveDate) : Duration := a.days - b.days

/-- Modelled from the spec: total order comparison of two naive dates. -/
def NaiveDate.cmp (a b : NaiveDate) : Ordering := compare a.days b.days

/-- Modelled from the spec: the always-`some` partial comparison of naive
dates (they are totally ordered). -/
def NaiveDate.partial_cmp (a b : NaiveDate) : Option Ordering := some (a.cmp b)

/-- Modelled from the spec: the external time-of-day collaborator; the
nanosecond field may exceed its nominal range to represent a leap second. -/
structure NaiveTime where
  hour : Nat
  min : Nat
  sec : Nat
  nano : Nat
deriving DecidableEq

/-- Modelled from the spec: fallible time construction with a nanosecond
fraction (nanoseconds up to 2,000,000,000 exclusive, for leap seconds). -/
def NaiveTime.from_hms_nano_opt (h m s n : Nat) : Option NaiveTime :=
  if h < 24 ∧ m < 60 ∧ s < 60 ∧ n < 2000000000 then some ⟨h, m, s, n⟩ else none

/-- Modelled from the spec: fallible time construction from hour, minute
and second. -/
def NaiveTime.from_hms_opt (h m s : Nat) : Option NaiveTime :=
  NaiveTime.from_hms_nano_opt h m s 0

/-- Modelled from the spec: fallible time construction with milliseconds. -/
def NaiveTime.from_hms_milli_opt (h m s milli : Nat) : Option NaiveTime :=
  NaiveTime.from_hms_nano_opt h m s (milli * 1000000)

/-- Modelled from the spec: fallible time construction with microseconds. -/
def NaiveTime.from_hms_micro_opt (h m s micro : Nat) : Option NaiveTime :=
  NaiveTime.from_hms_nano_opt h m s (micro * 1000)

/-- Modelled from the spec: the external naive datetime collaborator, a
date paired with a time-of-day. -/
structure NaiveDateTime where
  date : NaiveDate
  time : NaiveTime
deriving DecidableEq

/-- Modelled from the spec: combining a naive date with a time-of-day. -/
def NaiveDate.and_time (nd : NaiveDate) (t : NaiveTime) : NaiveDateTime := ⟨nd, t⟩

/-- Modelled from the spec: adding a (day-granular) duration to a naive
datetime. -/
def NaiveDateTime.addDur (x : NaiveDateTime) (k : Duration) : NaiveDateTime :=
  ⟨x.date.addDur k, x.time⟩

/-- Modelled from the spec: subtracting a duration from a naive datetime. -/
def NaiveDateTime.subDur (x : NaiveDateTime) (k : Duration) : NaiveDateTime :=
  x.addDur (-k)

/-- Modelled from the spec: the tri-state resolution result `LocalResult`
(§3): a local value maps to no UTC instant, exactly one, or two (earliest
state first). -/
inductive LocalResult (S : Type) where
  | None : LocalResult S
  | Single (s : S) : LocalResult S
  | Ambiguous (earliest latest : S) : LocalResult S
deriving DecidableEq

/-- Modelled from the spec: mapping a function over a resolution result. -/
def LocalResult.map (f : α → β) : LocalResult α → LocalResult β
  | .None => .None
  | .Single s => .Single (f s)
  | .Ambiguous a b => .Ambiguous (f a) (f b)

/-- Modelled from the spec: collapse a resolution to an optional value,
succeeding only on `Single` — never choosing a side of an `Ambiguous`
result and never fabricating a value for `None`. -/
def LocalResult.single : LocalResult S → Option S
  | .Single s => some s
  | _ => none

/-- Modelled from the spec: the timezone capability pair of §4.2 — the
`Offset` trait for a timezone type `T` with associated state type `S`,
bundled with the `OffsetState` operation `local_minus_utc` of `S`.
Local-direction queries are tri-valued, UTC-direction queries are total. -/
structure OffsetImpl (T S : Type) where
  from_state : S → T
  state_from_local_date : T → NaiveDate → LocalResult S
  state_from_local_time : T → NaiveTime → LocalResult S
  state_from_local_datetime : T → NaiveDateTime → LocalResult S
  state_from_utc_date : T → NaiveDate → S
  state_from_utc_time : T → NaiveTime → S
  state_from_utc_datetime : T → NaiveDateTime → S
  local_minus_utc : S → Duration

/-- The core calendar-date value of `src/date.rs`: a UTC-anchored naive
date paired with the offset state applicable to its own instant. -/
structure Date (S : Type) where
  date : NaiveDate
  offset : S
deriving DecidableEq

/-- Modelled from the spec: the calendar-datetime value (the external
`DateTime<Off>` collaborator): a UTC-anchored naive datetime paired with an
offset state. -/
structure DateTime (S : Type) where
  datetime : NaiveDateTime
  offset : S
deriving DecidableEq

/-- Modelled from the spec: the external `DateTime::from_utc` constructor. -/
def DateTime.from_utc (dt : NaiveDateTime) (s : S) : DateTime S := ⟨dt, s⟩

/-- Modelled from the spec: the local naive datetime of a calendar
datetime, derived as the stored UTC value plus `local_minus_utc`. -/
def DateTime.naive_local (o : OffsetImpl T S) (x : DateTime S) : NaiveDateTime :=
  x.datetime.addDur (o.local_minus_utc x.offset)

/-- Modelled from the spec: the `Offset` trait factory `from_utc_date`
(§4.1): a total UTC-direction construction, pairing the given UTC date
with the timezone's UTC-direction state at it. -/
def OffsetImpl.from_utc_date (o : OffsetImpl T S) (tz : T) (utc : NaiveDate) : Date S :=
  ⟨utc, o.state_from_utc_date tz utc⟩

/-- Modelled from the spec: the `Offset` trait factory `from_local_date`
(§3 lifecycle): resolves a local date through the local-direction query and
converts each resolved state to a UTC-anchored value. -/
def OffsetImpl.from_local_date (o : OffsetImpl T S) (tz : T) (loc : NaiveDate) :
    LocalResult (Date S) :=
  (o.state_from_local_date tz loc).map
    (fun s => ⟨loc.subDur (o.local_minus_utc s), s⟩)

/-- Modelled from the spec: the `Offset` trait factory `from_local_datetime`,
the datetime counterpart of `from_local_date`. -/
def OffsetImpl.from_local_datetime (o : OffsetImpl T S) (tz : T) (loc : NaiveDateTime) :
    LocalResult (DateTime S) :=
  (o.state_from_local_datetime tz loc).map
    (fun s => ⟨loc.subDur (o.local_minus_utc s), s⟩)

/-- Modelled from the spec: the `Offset` trait convenience factory `ymd`,
which builds the naive date from local civil fields and performs
local-direction resolution, collapsing `Single` to a value and propagating
failure as absence. -/
def OffsetImpl.ymd (o : OffsetImpl T S) (tz : T) (y : Int) (m d : Nat) :
    Option (Date S) :=
  (NaiveDate.from_ymd_opt y m d).bind (fun nd => (o.from_local_date tz nd).single)

/-- Models Rust's `Option::expect`: the aborting unwrap used by the
non-`_opt` convenience entry points, with the abort rendered as `Except.error`
carrying the panic message. -/
def expectMsg (msg : String) : Option α → Except String α
  | some a => .ok a
  | none => .error msg

/-- `Date::from_utc` (src/date.rs line 41): stores the given UTC date and
offset state directly, with no validation and no timezone consultation. -/
def Date.from_utc (date : NaiveDate) (offset : S) : Date S := ⟨date, offset⟩

/-- `Date::naive_utc` (line 189): the stored UTC-anchored date. -/
def Date.naive_utc (d : Date S) : NaiveDate := d.date

/-- `Date::naive_local` (line 195): the derived local date
`self.date + self.offset.local_minus_utc()`. -/
def Date.naive_local (o : OffsetImpl T S) (d : Date S) : NaiveDate :=
  d.date.addDur (o.local_minus_utc d.offset)

/-- `Date::timezone` (line 176): `Offset::from_state(&self.offset)`. -/
def Date.timezone (o : OffsetImpl T S) (d : Date S) : T := o.from_state d.offset

/-- `Date::with_timezone` (line 183): `tz.from_utc_date(&self.date)`. -/
def Date.with_timezone (o2 : OffsetImpl T2 S2) (tz : T2) (d : Date S) : Date S2 :=
  o2.from_utc_date tz d.date

/-- `Date::succ_opt` (line 148): successor of the UTC date, cloning the
offset state. -/
def Date.succ_opt (d : Date S) : Option (Date S) :=
  d.date.succ_opt.map (fun nd => Date.from_utc nd d.offset)

/-- `Date::succ` (line 140): `self.succ_opt().expect("out of bound")`. -/
def Date.succ (d : Date S) : Except String (Date S) :=
  expectMsg "out of bound" d.succ_opt

/-- `Date::pred_opt` (line 164): predecessor of the UTC date, cloning the
offset state. -/
def Date.pred_opt (d : Date S) : Option (Date S) :=
  d.date.pred_opt.map (fun nd => Date.from_utc nd d.offset)

/-- `Date::pred` (line 156): `self.pred_opt().expect("out of bound")`. -/
def Date.pred (d : Date S) : Except String (Date S) :=
  expectMsg "out of bound" d.pred_opt

/-- `Date::and_time` (line 50): builds the candidate local datetime from
`naive_local()` and the time, then resolves it through the timezone's
local-direction datetime query, keeping only a `Single` result. -/
def Date.and_time (o : OffsetImpl T S) (d : Date S) (t : NaiveTime) :
    Option (DateTime S) :=
  (o.from_local_datetime (d.timezone o) ((d.naive_local o).and_time t)).single

/-- `Date::and_hms_opt` (line 69): validates the time fields and defers to
`and_time`. -/
def Date.and_hms_opt (o : OffsetImpl T S) (d : Date S) (h m s : Nat) :
    Option (DateTime S) :=
  (NaiveTime.from_hms_opt h m s).bind (fun t => d.and_time o t)

/-- `Date::and_hms` (line 60): `self.and_hms_opt(...).expect("invalid time")`. -/
def Date.and_hms (o : OffsetImpl T S) (d : Date S) (h m s : Nat) :
    Except String (DateTime S) :=
  expectMsg "invalid time" (d.and_hms_opt o h m s)

/-- `Date::and_hms_milli_opt` (line 89). -/
def Date.and_hms_milli_opt (o : OffsetImpl T S) (d : Date S) (h m s milli : Nat) :
    Option (DateTime S) :=
  (NaiveTime.from_hms_milli_opt h m s milli).bind (fun t => d.and_time o t)

/-- `Date::and_hms_milli` (line 79). -/
def Date.and_hms_milli (o : OffsetImpl T S) (d : Date S) (h m s milli : Nat) :
    Except String (DateTime S) :=
  expectMsg "invalid time" (d.and_hms_milli_opt o h m s milli)

/-- `Date::and_hms_micro_opt` (line 110). -/
def Date.and_hms_micro_opt (o : OffsetImpl T S) (d : Date S) (h m s micro : Nat) :
    Option (DateTime S) :=
  (NaiveTime.from_hms_micro_opt h m s micro).bind (fun t => d.and_time o t)

/-- `Date::and_hms_micro` (line 100). -/
def Date.and_hms_micro (o : OffsetImpl T S) (d : Date S) (h m s micro : Nat) :
    Except String (DateTime S) :=
  expectMsg "invalid time" (d.and_hms_micro_opt o h m s micro)

/-- `Date::and_hms_nano_opt` (line 131). -/
def Date.and_hms_nano_opt (o : OffsetImpl T S) (d : Date S) (h m s nano : Nat) :
    Option (DateTime S) :=
  (NaiveTime.from_hms_nano_opt h m s nano).bind (fun t => d.and_time o t)

/-- `Date::and_hms_nano` (line 121). -/
def Date.and_hms_nano (o : OffsetImpl T S) (d : Date S) (h m s nano : Nat) :
    Except String (DateTime S) :=
  expectMsg "invalid time" (d.and_hms_nano_opt o h m s nano)

/-- `map_local` (line 201): applies a conversion to the local date and
re-resolves the result through the owning timezone's local-direction query,
keeping only a `Single` resolution. -/
def map_local (o : OffsetImpl T S) (d : Date S) (f : NaiveDate → Option NaiveDate) :
    Option (Date S) :=
  (f (d.naive_local o)).bind (fun nd => (o.from_local_date (d.timezone o) nd).single)

/-- `Datelike::year` for `Date` (line 216): field of `naive_local()`. -/
def Date.year (o : OffsetImpl T S) (d : Date S) : Int := (d.naive_local o).year

/-- `Datelike::month` for `Date` (line 217). -/
def Date.month (o : OffsetImpl T S) (d : Date S) : Nat := (d.naive_local o).month

/-- `Datelike::month0` for `Date` (line 218). -/
def Date.month0 (o : OffsetImpl T S) (d : Date S) : Nat := (d.naive_local o).month0

/-- `Datelike::day` for `Date` (line 219). -/
def Date.day (o : OffsetImpl T S) (d : Date S) : Nat := (d.naive_local o).day

/-- `Datelike::day0` for `Date` (line 220). -/
def Date.day0 (o : OffsetImpl T S) (d : Date S) : Nat := (d.naive_local o).day0

/-- `Datelike::ordinal` for `Date` (line 221). -/
def Date.ordinal (o : OffsetImpl T S) (d : Date S) : Nat := (d.naive_local o).ordinal

/-- `Datelike::ordinal0` for `Date` (line 222). -/
def Date.ordinal0 (o : OffsetImpl T S) (d : Date S) : Nat := (d.naive_local o).ordinal0

/-- `Datelike::weekday` for `Date` (line 223). -/
def Date.weekday (o : OffsetImpl T S) (d : Date S) : Weekday := (d.naive_local o).weekday

/-- `Datelike::isoweekdate` for `Date` (line 224). -/
def Date.isoweekdate (o : OffsetImpl T S) (d : Date S) : Int × Nat × Weekday :=
  (d.naive_local o).isoweekdate

/-- `Datelike::with_year` for `Date` (line 227): `map_local` of the naive
year replacement. -/
def Date.with_year (o : OffsetImpl T S) (d : Date S) (y : Int) : Option (Date S) :=
  map_local o d (fun nd => nd.with_year y)

/-- `Datelike::with_month` for `Date` (line 232). -/
def Date.with_month (o : OffsetImpl T S) (d : Date S) (m : Nat) : Option (Date S) :=
  map_local o d (fun nd => nd.with_month m)

/-- `Datelike::with_month0` for `Date` (line 237). -/
def Date.with_month0 (o : OffsetImpl T S) (d : Date S) (m0 : Nat) : Option (Date S) :=
  map_local o d (fun nd => nd.with_month0 m0)

/-- `Datelike::with_day` for `Date` (line 242). -/
def Date.with_day (o : OffsetImpl T S) (d : Date S) (dd : Nat) : Option (Date S) :=
  map_local o d (fun nd => nd.with_day dd)

/-- `Datelike::with_day0` for `Date` (line 247). -/
def Date.with_day0 (o : OffsetImpl T S) (d : Date S) (d0 : Nat) : Option (Date S) :=
  map_local o d (fun nd => nd.with_day0 d0)

/-- `Datelike::with_ordinal` for `Date` (line 252). -/
def Date.with_ordinal (o : OffsetImpl T S) (d : Date S) (od : Nat) : Option (Date S) :=
  map_local o d (fun nd => nd.with_ordinal od)

/-- `Datelike::with_ordinal0` for `Date` (line 257). -/
def Date.with_ordinal0 (o : OffsetImpl T S) (d : Date S) (o0 : Nat) : Option (Date S) :=
  map_local o d (fun nd => nd.with_ordinal0 o0)

/-- `PartialEq<Date<Off2>> for Date<Off>` (line 262): equality across
possibly different timezone types compares only the stored UTC dates. -/
def Date.eqHet (a : Date S1) (b : Date S2) : Bool := decide (a.date = b.date)

/-- `Ord for Date` (line 275): `self.date.cmp(&other.date)`. -/
def Date.cmp (a b : Date S) : Ordering := a.date.cmp b.date

/-- `PartialOrd for Date` (line 269): `self.date.partial_cmp(&other.date)`. -/
def Date.partial_cmp (a b : Date S) : Option Ordering := a.date.partial_cmp b.date

/-- `Hash for Date` (line 279): feeds only `self.date` to the hasher,
here represented as an arbitrary state-transformation of the hasher
state by the naive date. -/
def Date.hash (f : NaiveDate → H → H) (d : Date S) (st : H) : H := f d.date st

/-- `Add<Duration> for Date` (line 286): adds to the UTC-anchored date and
keeps the offset state. -/
def Date.add (d : Date S) (k : Duration) : Date S :=
  { date := d.date.addDur k, offset := d.offset }

/-- `Sub<Date<Off2>> for Date<Off>` (line 294): difference of the two
UTC-anchored dates, the timezones being irrelevant. -/
def Date.subDate (a : Date S1) (b : Date S2) : Duration :=
  NaiveDate.subDate a.date b.date

/-- `Sub<Duration> for Date` (line 301): `self.add(-rhs)`. -/
def Date.subDur (d : Date S) (k : Duration) : Date S := d.add (-k)

/-- Modelled from the spec: the fixed-UTC concrete timezone — every query
resolves to the single trivial state with a zero adjustment. -/
def utcImpl : OffsetImpl Unit Unit where
  from_state := fun _ => ()
  state_from_local_date := fun _ _ => .Single ()
  state_from_local_time := fun _ _ => .Single ()
  state_from_local_datetime := fun _ _ => .Single ()
  state_from_utc_date := fun _ _ => ()
  state_from_utc_time := fun _ _ => ()
  state_from_utc_datetime := fun _ _ => ()
  local_minus_utc := fun _ => 0

/-- Modelled from the spec: a fixed-offset concrete timezone family — the
timezone and its state are both the fixed day adjustment, every
local-direction query is `Single` and the state round-trips through
`from_state` unchanged. -/
def fixedImpl : OffsetImpl Int Int where
  from_state := fun s => s
  state_from_local_date := fun tz _ => .Single tz
  state_from_local_time := fun tz _ => .Single tz
  state_from_local_datetime := fun tz _ => .Single tz
  state_from_utc_date := fun tz _ => tz
  state_from_utc_time := fun tz _ => tz
  state_from_utc_datetime := fun tz _ => tz
  local_minus_utc := fun s => s

/-- The test fixture timezone `UTC1y` of `src/date.rs` (line 327): like
UTC but with an offset of 365 days. -/
inductive UTC1y where
  | mk
deriving DecidableEq

/-- The test fixture offset state `OneYear` of `src/date.rs` (line 330). -/
inductive OneYear where
  | mk
deriving DecidableEq

/-- The `Offset`/`OffsetState` impls for `UTC1y`/`OneYear` from the test
module of `src/date.rs` (lines 332–354): every local-direction query is
`Single(OneYear)`, every UTC-direction query yields `OneYear`, and
`local_minus_utc` is 365 days. -/
def utc1yImpl : OffsetImpl UTC1y OneYear where
  from_state := fun _ => .mk
  state_from_local_date := fun _ _ => .Single .mk
  state_from_local_time := fun _ _ => .Single .mk
  state_from_local_datetime := fun _ _ => .Single .mk
  state_from_utc_date := fun _ _ => .mk
  state_from_utc_time := fun _ _ => .mk
  state_from_utc_datetime := fun _ _ => .mk
  local_minus_utc := fun _ => 365

/-- The `fmt::Debug` impl for `OneYear` from the test module of
`src/date.rs` (line 357): always renders as `+8760:00`. -/
def OneYear.debug : OneYear → String := fun _ => "+8760:00"

/-- A synthetic timezone whose local-direction queries always answer
`Ambiguous`, exercising the overlap branch of the resolution protocol; the
state is a boolean naming the later of the two folded instants. -/
def ambImpl : OffsetImpl Unit Bool where
  from_state := fun _ => ()
  state_from_local_date := fun _ _ => .Ambiguous false true
  state_from_local_time := fun _ _ => .Ambiguous false true
  state_from_local_datetime := fun _ _ => .Ambiguous false true
  state_from_utc_date := fun _ _ => false
  state_from_utc_time := fun _ _ => false
  state_from_utc_datetime := fun _ _ => false
  local_minus_utc := fun _ => 0

/-- Decimal digit as a character. -/
def digitChar (n : Nat) : Char := Char.ofNat (48 + n % 10)

/-- Fuel-driven accumulation of the decimal digits of a number. -/
def natDigitsGo : Nat → Nat → List Char → List Char
  | 0, _, acc => acc
  | fuel + 1, n, acc =>
    if n < 10 then digitChar n :: acc
    else natDigitsGo fuel (n / 10) (digitChar (n % 10) :: acc)

/-- Decimal digits of a number, most significant first. -/
def natDigits (n : Nat) : List Char := natDigitsGo (n + 1) n []

/-- Decimal rendering of a number, zero-padded to the given width. -/
def padNat (width n : Nat) : String :=
  String.mk (List.replicate (width - (natDigits n).length) '0' ++ natDigits n)

/-- Rendering of a (possibly negative) year, zero-padded to four digits. -/
def yearStr (y : Int) : String :=
  if y < 0 then "-" ++ padNat 4 (-y).toNat else padNat 4 y.toNat

/-- Modelled from the spec: the external formatting collaborator's
rendering of a naive date, `YYYY-MM-DD`. -/
def debugNaiveDate (nd : NaiveDate) : String :=
  yearStr nd.year ++ "-" ++ padNat 2 nd.month ++ "-" ++ padNat 2 nd.day

/-- Modelled from the spec: the external formatting collaborator's
rendering of a time-of-day, `HH:MM:SS` with an optional fraction. -/
def debugNaiveTime (t : NaiveTime) : String :=
  padNat 2 t.hour ++ ":" ++ padNat 2 t.min ++ ":" ++ padNat 2 t.sec ++
    (if t.nano = 0 then "" else "." ++ padNat 9 t.nano)

/-- Modelled from the spec: the external rendering of a naive datetime,
date and time joined by `T`. -/
def debugNaiveDateTime (x : NaiveDateTime) : String :=
  debugNaiveDate x.date ++ "T" ++ debugNaiveTime x.time

/-- `fmt::Debug for Date` (line 304): renders `naive_local()` followed by
the offset state's own rendering. -/
def Date.debug (o : OffsetImpl T S) (dbg : S → String) (d : Date S) : String :=
  debugNaiveDate (d.naive_local o) ++ dbg d.offset

/-- Modelled from the spec: the external `fmt::Debug for DateTime`, which
renders the local naive datetime followed by the offset state. -/
def DateTime.debug (o : OffsetImpl T S) (dbg : S → String) (x : DateTime S) : String :=
  debugNaiveDateTime (x.naive_local o) ++ dbg x.offset

/-- `LocalResult::single` produces a value exactly for a `Single`
resolution. -/
theorem LocalResult.single_eq_some_iff {r : LocalResult α} {x : α} :
    r.single = some x ↔ r = .Single x := by
  cases r <;> simp [LocalResult.single]

/-- C1: equality of two calendar dates — even across timezone types — holds
exactly when their UTC-anchored dates agree, ordering of same-timezone
values is the ordering of their UTC-anchored dates, and hashing feeds only
the UTC-anchored date to the hasher, so equal values hash equal; the offset
state is ignored by all three. -/
theorem c1_identity_is_utc_date {S1 S2 H : Type} :
    ∀ (a : Date S1) (b : Date S2),
    (Date.eqHet a b = true ↔ a.naive_utc = b.naive_utc)
    ∧ (∀ c d : Date S1,
        Date.cmp c d = NaiveDate.cmp c.naive_utc d.naive_utc
        ∧ Date.partial_cmp c d = some (NaiveDate.cmp c.naive_utc d.naive_utc))
    ∧ (∀ (f : NaiveDate → H → H) (st : H),
        Date.hash f a st = f a.naive_utc st
        ∧ (Date.eqHet a b = true → Date.hash f a st = Date.hash f b st)) := by
  intro a b
  refine ⟨?_, fun c d => ⟨rfl, rfl⟩, fun f st => ⟨rfl, fun h => ?_⟩⟩
  · simp [Date.eqHet, Date.naive_utc]
  · simp only [Date.eqHet, decide_eq_true_eq] at h
    simp [Date.hash, h]

/-- Witness for C1 at concrete inputs: two dates with the same UTC day but
different fixed offsets hash identically. -/
theorem c1_identity_is_utc_date_witness :
    Date.hash (fun nd st => nd.days + st) (Date.from_utc ⟨5⟩ (0 : Int)) 0
      = Date.hash (fun nd st => nd.days + st) (Date.from_utc ⟨5⟩ (7 : Int)) 0 := by
  have h := @c1_identity_is_utc_date Int Int Int
    (Date.from_utc ⟨5⟩ (0 : Int)) (Date.from_utc ⟨5⟩ (7 : Int))
  exact (h.2.2 (fun nd st => nd.days + st) 0).2 (by decide)

/-- C2: every field mutator applies the field edit to `naive_local()`, is
`none` when the edit itself fails, and otherwise re-resolves the edited
local date through the owning timezone's `from_local_date`, producing a
value exactly for a `Single` resolution — a `None` or `Ambiguous` resolution
yields `none`, never a guessed value. -/
theorem c2_field_mutators_resolve_via_local {T S : Type} :
    ∀ (o : OffsetImpl T S) (d : Date S) (y : Int) (m m0 dd d0 od o0 : Nat),
    Date.with_year o d y = ((d.naive_local o).with_year y).bind
        (fun nd => (o.from_local_date (d.timezone o) nd).single)
    ∧ Date.with_month o d m = ((d.naive_local o).with_month m).bind
        (fun nd => (o.from_local_date (d.timezone o) nd).single)
    ∧ Date.with_month0 o d m0 = ((d.naive_local o).with_month0 m0).bind
        (fun nd => (o.from_local_date (d.timezone o) nd).single)
    ∧ Date.with_day o d dd = ((d.naive_local o).with_day dd).bind
        (fun nd => (o.from_local_date (d.timezone o) nd).single)
    ∧ Date.with_day0 o d d0 = ((d.naive_local o).with_day0 d0).bind
        (fun nd => (o.from_local_date (d.timezone o) nd).single)
    ∧ Date.with_ordinal o d od = ((d.naive_local o).with_ordinal od).bind
        (fun nd => (o.from_local_date (d.timezone o) nd).single)
    ∧ Date.with_ordinal0 o d o0 = ((d.naive_local o).with_ordinal0 o0).bind
        (fun nd => (o.from_local_date (d.timezone o) nd).single)
    ∧ ((d.naive_local o).with_month m = none → Date.with_month o d m = none)
    ∧ (∀ (nd : NaiveDate) (r : Date S),
        (o.from_local_date (d.timezone o) nd).single = some r
          ↔ o.from_local_date (d.timezone o) nd = .Single r)
    ∧ (∀ (nd : NaiveDate),
        (o.from_local_date (d.timezone o) nd = .None
          ∨ ∃ r1 r2, o.from_local_date (d.timezone o) nd = .Ambiguous r1 r2)
        → (o.from_local_date (d.timezone o) nd).single = none) := by
  intro o d y m m0 dd d0 od o0
  refine ⟨rfl, rfl, rfl, rfl, rfl, rfl, rfl, fun h => ?_, fun nd r => ?_, fun nd h => ?_⟩
  · simp [Date.with_month, map_local, h]
  · exact LocalResult.single_eq_some_iff
  · rcases h with h | ⟨r1, r2, h⟩ <;> simp [LocalResult.single, h]

/-- Witness for C2 at concrete inputs: a calendrically out-of-range edit
(month 13) makes the mutator fail. -/
theorem c2_field_mutators_resolve_via_local_witness :
    Date.with_month utcImpl (Date.from_utc ⟨0⟩ ()) 13 = none := by
  have h := c2_field_mutators_resolve_via_local utcImpl (Date.from_utc ⟨0⟩ ()) 0 13 0 0 0 0 0
  exact h.2.2.2.2.2.2.2.1 (by decide)

/-- C3: `and_time` builds the candidate local datetime from `naive_local()`
and the time, resolves it through the timezone's local-direction datetime
query, and is `some` exactly for a `Single` resolution; the `and_hms*`
family validates the time fields and defers to `and_time`; the `_opt` forms
return `none` on any failure while the non-`_opt` forms abort with
"invalid time"; a gap or overlap resolution never yields a fabricated or
silently chosen value. -/
theorem c3_and_time_resolution_protocol {T S : Type} :
    ∀ (o : OffsetImpl T S) (d : Date S) (t : NaiveTime) (h m s milli micro nano : Nat),
    (∀ x : DateTime S,
        Date.and_time o d t = some x
          ↔ o.from_local_datetime (d.timezone o) ((d.naive_local o).and_time t) = .Single x)
    ∧ Date.and_hms_opt o d h m s
        = (NaiveTime.from_hms_opt h m s).bind (fun tt => Date.and_time o d tt)
    ∧ Date.and_hms_milli_opt o d h m s milli
        = (NaiveTime.from_hms_milli_opt h m s milli).bind (fun tt => Date.and_time o d tt)
    ∧ Date.and_hms_micro_opt o d h m s micro
        = (NaiveTime.from_hms_micro_opt h m s micro).bind (fun tt => Date.and_time o d tt)
    ∧ Date.and_hms_nano_opt o d h m s nano
        = (NaiveTime.from_hms_nano_opt h m s nano).bind (fun tt => Date.and_time o d tt)
    ∧ (Date.and_hms_opt o d h m s = none ↔ Date.and_hms o d h m s = .error "invalid time")
    ∧ (∀ x : DateTime S, Date.and_hms_opt o d h m s = some x ↔ Date.and_hms o d h m s = .ok x)
    ∧ (∀ s1 s2 : S,
        o.state_from_local_datetime (d.timezone o) ((d.naive_local o).and_time t)
            = .Ambiguous s1 s2
          → Date.and_time o d t = none)
    ∧ (o.state_from_local_datetime (d.timezone o) ((d.naive_local o).and_time t) = .None
        → Date.and_time o d t = none) := by
  intro o d t h m s milli micro nano
  refine ⟨fun x => LocalResult.single_eq_some_iff, rfl, rfl, rfl, rfl, ?_, fun x => ?_,
    fun s1 s2 hh => ?_, fun hh => ?_⟩
  · cases h2 : Date.and_hms_opt o d h m s <;> simp [Date.and_hms, expectMsg, h2]
  · cases h2 : Date.and_hms_opt o d h m s <;> simp [Date.and_hms, expectMsg, h2]
  · simp [Date.and_time, OffsetImpl.from_local_datetime, hh, LocalResult.map,
      LocalResult.single]
  · simp [Date.and_time, OffsetImpl.from_local_datetime, hh, LocalResult.map,
      LocalResult.single]

/-- Witness for C3 at concrete inputs: under a synthetic timezone whose
local-direction datetime query is always `Ambiguous`, `and_time` is absent
and `and_hms` aborts instead of choosing a side. -/
theorem c3_and_time_resolution_protocol_witness :
    Date.and_time ambImpl (Date.from_utc ⟨0⟩ false) ⟨1, 2, 3, 0⟩ = none
    ∧ Date.and_hms ambImpl (Date.from_utc ⟨0⟩ false) 1 2 3 = .error "invalid time" := by
  have h := c3_and_time_resolution_protocol ambImpl (Date.from_utc ⟨0⟩ false)
    ⟨1, 2, 3, 0⟩ 1 2 3 0 0 0
  constructor
  · exact h.2.2.2.2.2.2.2.1 false true rfl
  · exact (h.2.2.2.2.2.1).mp (by decide)

/-- C4: `with_timezone` is total, preserves the UTC-anchored date (the
UTC-direction construction pairs exactly the given UTC date with the new
timezone's state), and hence the double-retimezoning round trip is the
identity under the type's equality — in particular for fixed-offset
timezones. -/
theorem c4_with_timezone_total_same_instant {T2 S2 T1 S1 S : Type} :
    ∀ (o2 : OffsetImpl T2 S2) (tz2 : T2) (d : Date S),
    (Date.with_timezone o2 tz2 d).naive_utc = d.naive_utc
    ∧ (∀ (o1 : OffsetImpl T1 S1) (tz1 : T1),
        Date.eqHet (Date.with_timezone o1 tz1 (Date.with_timezone o2 tz2 d)) d = true)
    ∧ (∀ k1 k2 : Int,
        Date.eqHet (Date.with_timezone fixedImpl k1 (Date.with_timezone fixedImpl k2 d)) d
          = true) := by
  intro o2 tz2 d
  refine ⟨rfl, fun o1 tz1 => ?_, fun k1 k2 => ?_⟩ <;>
    simp [Date.eqHet, Date.with_timezone, OffsetImpl.from_utc_date]

/-- C5: adding then subtracting a duration is the identity (even as full
values, hence under the type's equality), and the difference of `d + k` and
`d` is `k`, the two timezones being irrelevant to date subtraction. -/
theorem c5_add_sub_identities {S : Type} :
    ∀ (d : Date S) (k : Duration),
    Date.subDur (Date.add d k) k = d
    ∧ Date.eqHet (Date.subDur (Date.add d k) k) d = true
    ∧ Date.subDate (Date.add d k) d = k := by
  intro d k
  have h1 : Date.subDur (Date.add d k) k = d := by
    cases d with
    | mk nd s => simp [Date.subDur, Date.add, NaiveDate.addDur]
  refine ⟨h1, ?_, ?_⟩
  · rw [h1]; simp [Date.eqHet]
  · simp [Date.subDate, Date.add, NaiveDate.subDate, NaiveDate.addDur]

/-- C6: duration arithmetic changes only the UTC-anchored date and leaves
the offset state untouched — it is never re-resolved through the
timezone. -/
theorem c6_duration_arith_keeps_offset {S : Type} :
    ∀ (d : Date S) (k : Duration),
    (Date.add d k).offset = d.offset
    ∧ (Date.subDur d k).offset = d.offset
    ∧ (Date.add d k).naive_utc = d.naive_utc.addDur k
    ∧ (Date.subDur d k).naive_utc = d.naive_utc.addDur (-k) :=
  fun _ _ => ⟨rfl, rfl, rfl, rfl⟩

/-- C7: for an in-range date, `succ_opt` yields the next UTC calendar day
with the offset state retained, failing exactly at the last representable
date; symmetrically for `pred_opt`; the non-`_opt` forms abort with
"out of bound" exactly in the `none` case. -/
theorem c7_succ_pred_boundary {S : Type} :
    ∀ (d : Date S), minDay ≤ d.naive_utc.days → d.naive_utc.days ≤ maxDay →
    (d.naive_utc ≠ naiveMAX
        → Date.succ_opt d = some (Date.from_utc ⟨d.naive_utc.days + 1⟩ d.offset))
    ∧ (d.naive_utc = naiveMAX → Date.succ_opt d = none)
    ∧ (Date.succ_opt d = none ↔ Date.succ d = .error "out of bound")
    ∧ (d.naive_utc ≠ naiveMIN
        → Date.pred_opt d = some (Date.from_utc ⟨d.naive_utc.days - 1⟩ d.offset))
    ∧ (d.naive_utc = naiveMIN → Date.pred_opt d = none)
    ∧ (Date.pred_opt d = none ↔ Date.pred d = .error "out of bound") := by
  rintro ⟨⟨z⟩, s⟩ h1 h2
  simp only [Date.naive_utc, naiveMAX, naiveMIN, ne_eq, NaiveDate.mk.injEq] at h1 h2 ⊢
  refine ⟨fun hne => ?_, fun he => ?_, ?_, fun hne => ?_, fun he => ?_, ?_⟩
  · have hlt : z < maxDay := lt_of_le_of_ne h2 hne
    simp [Date.succ_opt, NaiveDate.succ_opt, hlt, Date.from_utc]
  · simp [Date.succ_opt, NaiveDate.succ_opt, he]
  · cases h3 : Date.succ_opt (Date.mk ⟨z⟩ s) <;> simp [Date.succ, expectMsg, h3]
  · have hlt : minDay < z := lt_of_le_of_ne h1 (fun hx => hne hx.symm)
    simp [Date.pred_opt, NaiveDate.pred_opt, hlt, Date.from_utc]
  · simp [Date.pred_opt, NaiveDate.pred_opt, he]
  · cases h3 : Date.pred_opt (Date.mk ⟨z⟩ s) <;> simp [Date.pred, expectMsg, h3]

/-- Witness for C7 at the representable boundary: `succ_opt` fails at the
maximum date, `succ` aborts there, and `pred_opt` fails at the minimum. -/
theorem c7_succ_pred_boundary_witness :
    Date.succ_opt (Date.from_utc naiveMAX ()) = none
    ∧ Date.succ (Date.from_utc naiveMAX ()) = .error "out of bound"
    ∧ Date.pred_opt (Date.from_utc naiveMIN ()) = none := by
  have hmax := c7_succ_pred_boundary (Date.from_utc naiveMAX ()) (by decide) (by decide)
  have hmin := c7_succ_pred_boundary (Date.from_utc naiveMIN ()) (by decide) (by decide)
  refine ⟨hmax.2.1 rfl, ?_, hmin.2.2.2.2.1 rfl⟩
  exact (hmax.2.2.1).mp (hmax.2.1 rfl)

/-- C8 as stated is false: the value the test scenario renders as
`2012-02-29T05:06:07+8760:00` does not have 2012-02-29 as its UTC-anchored
date — a value whose UTC date really is 2012-02-29 renders differently, the
test value's UTC date is 2011-03-01, and the second test value is not the
successor of the first. -/
theorem c8_counterexample :
    ((Date.and_hms_opt utc1yImpl (Date.from_utc ⟨daysFromCivil 2012 2 29⟩ OneYear.mk) 5 6 7).map
        (DateTime.debug utc1yImpl OneYear.debug) ≠ some "2012-02-29T05:06:07+8760:00")
    ∧ (OffsetImpl.ymd utc1yImpl UTC1y.mk 2012 2 29).map Date.naive_utc
        ≠ some ⟨daysFromCivil 2012 2 29⟩
    ∧ (OffsetImpl.ymd utc1yImpl UTC1y.mk 2012 2 29).bind Date.succ_opt
        ≠ OffsetImpl.ymd utc1yImpl UTC1y.mk 2012 3 4 := by
  decide

/-- C8 amended: under the +8760:00 (365-day) fixed timezone, the value
constructed from the local civil fields 2012-02-29 (UTC-anchored date
2011-03-01) renders, with `and_hms(5,6,7)`, as
`2012-02-29T05:06:07+8760:00`, and the value constructed from the local
civil fields 2012-03-04 (UTC-anchored date 2011-03-05, four days later)
renders as `2012-03-04T05:06:07+8760:00`: offset rendering is stable across
the leap-day boundary. -/
theorem c8_amended_renderings :
    (OffsetImpl.ymd utc1yImpl UTC1y.mk 2012 2 29).map (Date.debug utc1yImpl OneYear.debug)
      = some "2012-02-29+8760:00"
    ∧ ((OffsetImpl.ymd utc1yImpl UTC1y.mk 2012 2 29).bind
        (fun d => Date.and_hms_opt utc1yImpl d 5 6 7)).map
          (DateTime.debug utc1yImpl OneYear.debug)
      = some "2012-02-29T05:06:07+8760:00"
    ∧ (OffsetImpl.ymd utc1yImpl UTC1y.mk 2012 3 4).map (Date.debug utc1yImpl OneYear.debug)
      = some "2012-03-04+8760:00"
    ∧ ((OffsetImpl.ymd utc1yImpl UTC1y.mk 2012 3 4).bind
        (fun d => Date.and_hms_opt utc1yImpl d 5 6 7)).map
          (DateTime.debug utc1yImpl OneYear.debug)
      = some "2012-03-04T05:06:07+8760:00"
    ∧ (OffsetImpl.ymd utc1yImpl UTC1y.mk 2012 2 29).map Date.naive_utc
      = some ⟨daysFromCivil 2011 3 1⟩
    ∧ (OffsetImpl.ymd utc1yImpl UTC1y.mk 2012 3 4).map Date.naive_utc
      = some ⟨daysFromCivil 2011 3 5⟩ := by
  decide

/-- C9: every field accessor of a calendar date reports the corresponding
field of `naive_local()` — the stored UTC date shifted by the offset
state's `local_minus_utc` — and for an offset crossing a day boundary these
differ from the UTC date's own fields even though equality compares only
the UTC date. -/
theorem c9_accessors_report_local_fields {T S : Type} :
    (∀ (o : OffsetImpl T S) (d : Date S),
      Date.year o d = (d.naive_local o).year
      ∧ Date.month o d = (d.naive_local o).month
      ∧ Date.month0 o d = (d.naive_local o).month0
      ∧ Date.day o d = (d.naive_local o).day
      ∧ Date.day0 o d = (d.naive_local o).day0
      ∧ Date.ordinal o d = (d.naive_local o).ordinal
      ∧ Date.ordinal0 o d = (d.naive_local o).ordinal0
      ∧ Date.weekday o d = (d.naive_local o).weekday
      ∧ Date.isoweekdate o d = (d.naive_local o).isoweekdate
      ∧ d.naive_local o = d.naive_utc.addDur (o.local_minus_utc d.offset))
    ∧ (Date.year fixedImpl (Date.from_utc ⟨daysFromCivil 2020 12 31⟩ 1)
        ≠ (NaiveDate.mk (daysFromCivil 2020 12 31)).year
      ∧ Date.month fixedImpl (Date.from_utc ⟨daysFromCivil 2020 12 31⟩ 1)
        ≠ (NaiveDate.mk (daysFromCivil 2020 12 31)).month
      ∧ Date.day fixedImpl (Date.from_utc ⟨daysFromCivil 2020 12 31⟩ 1)
        ≠ (NaiveDate.mk (daysFromCivil 2020 12 31)).day
      ∧ Date.eqHet (Date.from_utc ⟨daysFromCivil 2020 12 31⟩ (1 : Int))
          (Date.from_utc ⟨daysFromCivil 2020 12 31⟩ (0 : Int)) = true) := by
  exact ⟨fun o d => ⟨rfl, rfl, rfl, rfl, rfl, rfl, rfl, rfl, rfl, rfl⟩, by decide⟩

/-- C10: `from_utc` is a total, validation-free pairing — it consults no
timezone, and the constructed value returns exactly the given UTC date and
offset state, so arbitrary pairings are representable. -/
theorem c10_from_utc_is_exact_pairing {S : Type} :
    ∀ (nd : NaiveDate) (s : S),
    (Date.from_utc nd s).naive_utc = nd
    ∧ (Date.from_utc nd s).offset = s
    ∧ Date.from_utc nd s = Date.mk nd s :=
  fun _ _ => ⟨rfl, rfl, rfl⟩

end Chrono
